import Mathlib

/-!
Shallow embedding of the BackTrack extension core
(src/constants.ts, src/hooks/useChatScanner.ts,
src/components/ChatNavigator.tsx) and proofs about the claims of the
specification.

JavaScript strings are modelled as `List Char`; machine timestamps and
durations as `Nat` (milliseconds); panel geometry as `ℚ` (CSS pixel
coordinates, exact arithmetic for halving).
-/

namespace BackTrack

/-- JavaScript string, modelled as a list of characters. -/
abbrev JStr := List Char

/-- Whitespace predicate used by `String.prototype.trim` (the common
ASCII cases suffice for this development). -/
def jsIsWhitespace (c : Char) : Bool :=
  c = ' ' || c = '\t' || c = '\n' || c = '\r'

/-- `s.trim()`: remove leading and trailing whitespace. -/
def jsTrim (s : JStr) : JStr :=
  ((s.dropWhile jsIsWhitespace).reverse.dropWhile jsIsWhitespace).reverse

/-- `h.includes(sub)`: substring containment, as used by
`detectPlatform` in src/constants.ts. -/
def jsIncludes (h sub : JStr) : Bool :=
  sub.isPrefixOf h ||
    match h with
    | [] => false
    | _ :: t => jsIncludes t sub

/-- Decimal digits of a natural number, for template-literal
interpolation. -/
def natToChars (n : Nat) : JStr := Nat.toDigits 10 n

/-- Decimal rendering of an integer, for template-literal
interpolation. -/
def intToChars (i : Int) : JStr :=
  if i < 0 then '-' :: natToChars i.natAbs else natToChars i.toNat

/-- `Math.round(x)` in JavaScript: floor of `x + 1/2` (rounds halves
toward positive infinity, also for negative arguments). -/
def jsRound (q : ℚ) : Int := Int.floor (q + 1/2)

/-! ## Platform registry (src/constants.ts and src/types.ts) -/

/-- `Platform` union type from src/types.ts. -/
inductive Platform where
  | chatgpt
  | claude
  | gemini
  | groq
  | unknown
deriving DecidableEq, Repr

/-- `PlatformConfig` record from src/types.ts. -/
structure PlatformConfig where
  name : JStr
  hostname : JStr
  selectors : List JStr
  containerSelector : Option JStr
deriving DecidableEq, Repr

/-- `PLATFORM_CONFIGS` table from src/constants.ts; the `unknown` entry
is `null`, modelled as `none`. -/
def PLATFORM_CONFIGS : Platform → Option PlatformConfig
  | .chatgpt => some
      { name := "ChatGPT".data
        hostname := "chatgpt.com".data
        selectors := ["[data-message-author-role=\"user\"]".data]
        containerSelector := some "main".data }
  | .claude => some
      { name := "Claude".data
        hostname := "claude.ai".data
        selectors := [".font-user-message".data]
        containerSelector := some "main".data }
  | .gemini => some
      { name := "Gemini".data
        hostname := "gemini.google.com".data
        selectors := [".user-query-wrapper".data,
                      "[data-test-id=\"user-query\"]".data]
        containerSelector := some "main".data }
  | .groq => some
      { name := "Groq".data
        hostname := "groq.com".data
        selectors := [".message-user".data, "[data-role=\"user\"]".data]
        containerSelector := some "main".data }
  | .unknown => none

/-- `detectPlatform` from src/constants.ts; the current hostname is an
explicit argument (the source reads `window.location.hostname`). -/
def detectPlatform (hostname : JStr) : Platform :=
  if jsIncludes hostname "chatgpt.com".data then .chatgpt
  else if jsIncludes hostname "claude.ai".data then .claude
  else if jsIncludes hostname "gemini.google.com".data then .gemini
  else if jsIncludes hostname "groq.com".data then .groq
  else .unknown

/-- `getPlatformConfig` from src/constants.ts. -/
def getPlatformConfig (platform : Platform) : Option PlatformConfig :=
  PLATFORM_CONFIGS platform

/-- `MAX_PROMPT_TEXT_LENGTH` from src/constants.ts. -/
def MAX_PROMPT_TEXT_LENGTH : Nat := 80

/-- `SCAN_DEBOUNCE_DELAY` from src/constants.ts (milliseconds). -/
def SCAN_DEBOUNCE_DELAY : Nat := 300

/-! The spec-side view of platform identification (spec sections 4.1
and 8): the ordered registry is scanned for the first platform whose
`hostnameMatch` is a substring of the hostname. -/

/-- The fixed listed order of known platforms (registry order in
src/constants.ts). -/
def platformOrder : List Platform :=
  [.chatgpt, .claude, .gemini, .groq]

/-- Modelled from the spec (section 4.1): `identify(hostname)` returns
the first platform in the listed order whose `hostnameMatch` is a
substring of the hostname, or `unknown` when none matches. -/
def identifySpec (hostname : JStr) : Platform :=
  (platformOrder.find? (fun p =>
    match PLATFORM_CONFIGS p with
    | some cfg => jsIncludes hostname cfg.hostname
    | none => false)).getD .unknown

/-! ## DOM model and content scanner (src/hooks/useChatScanner.ts) -/

/-- The view of a DOM element that the scanner reads: its visible text
content (`textContent`, `none` modelled as the empty string would be,
kept explicit via the string itself since `?? ""` collapses it), the
number of `img` descendants (`querySelectorAll("img").length`), and the
bounding-box top/left coordinates returned by
`getBoundingClientRect`. -/
structure Element where
  textContent : JStr
  imageCount : Nat
  rectTop : ℚ
  rectLeft : ℚ
deriving DecidableEq, Repr

/-- A document state: `document.querySelectorAll(selector)` either
yields a list of elements in document order, or throws (for example on
a syntactically invalid selector), modelled with `Except`. -/
structure Doc where
  query : JStr → Except Unit (List Element)

/-- The camera emoji used by `extractText` as an image marker. -/
def cameraChar : Char := Char.ofNat 128247

/-- `extractText` from src/hooks/useChatScanner.ts: trim the text
content, substitute an image-count placeholder when there is no text
but there are images, prefix a camera marker when there are both, then
hard-truncate to `MAX_PROMPT_TEXT_LENGTH` characters plus a
three-character ellipsis. -/
def extractText (element : Element) : JStr :=
  let text := jsTrim element.textContent
  let hasImages := element.imageCount > 0
  let text :=
    if text = [] ∧ hasImages then
      if element.imageCount = 1 then
        [cameraChar] ++ " [Image]".data
      else
        [cameraChar] ++ " [".data ++ natToChars element.imageCount ++
          " Images]".data
    else if text ≠ [] ∧ hasImages then
      [cameraChar, ' '] ++ text
    else text
  if text.length > MAX_PROMPT_TEXT_LENGTH then
    text.take MAX_PROMPT_TEXT_LENGTH ++ "...".data
  else text

/-- `generatePromptId` from src/hooks/useChatScanner.ts:
`prompt-${index}-${Math.round(rect.top)}-${Math.round(rect.left)}`. -/
def generatePromptId (element : Element) (index : Nat) : JStr :=
  "prompt-".data ++ natToChars index ++ "-".data ++
    intToChars (jsRound element.rectTop) ++ "-".data ++
    intToChars (jsRound element.rectLeft)

/-- `ChatPrompt` record from src/types.ts. -/
structure ChatPrompt where
  id : JStr
  index : Nat
  text : JStr
  element : Element
  timestamp : Nat
deriving DecidableEq, Repr

/-- The `elements.forEach` body inside `scanForPrompts`: extract text,
skip elements with empty text, otherwise append a prompt carrying the
next sequential index (`index + 1`, 1-based) and advance the counter.
Returns the accumulated prompt list and the counter. -/
def processElements (now : Nat) : List Element → List ChatPrompt → Nat →
    List ChatPrompt × Nat
  | [], acc, idx => (acc, idx)
  | e :: rest, acc, idx =>
    if extractText e = [] then processElements now rest acc idx
    else
      processElements now rest
        (acc ++ [{ id := generatePromptId e idx
                   index := idx + 1
                   text := extractText e
                   element := e
                   timestamp := now }])
        (idx + 1)

/-- The `for (const selector of config.selectors)` loop inside
`scanForPrompts`: query each selector in listed order, process its
elements, and break as soon as the accumulated prompt list is
non-empty (`if (foundPrompts.length > 0) break`). A query may throw,
which propagates to the surrounding `try`. -/
def trySelectors (doc : Doc) (now : Nat) :
    List JStr → List ChatPrompt → Nat → Except Unit (List ChatPrompt)
  | [], acc, _ => .ok acc
  | sel :: rest, acc, idx =>
    match doc.query sel with
    | .error e => .error e
    | .ok elements =>
      let r := processElements now elements acc idx
      if r.1.length > 0 then .ok r.1
      else trySelectors doc now rest r.1 r.2

/-- The scanner-visible React state of `useChatScanner`: the published
prompt list, the detected platform, the `isScanning` flag, and the
`scannedElementsRef` cache (a `WeakSet`, modelled as a list of
elements). -/
structure ScannerState where
  prompts : List ChatPrompt
  platform : Platform
  isScanning : Bool
  scannedElements : List Element
deriving DecidableEq, Repr

/-- `scanForPrompts` from src/hooks/useChatScanner.ts as a state
transition. If the detected platform has no config, it logs and
returns, leaving prompts and `isScanning` untouched. Otherwise the
selector loop runs inside `try`: on success the found prompts replace
the published list; a thrown exception is caught and logged; the
`finally` block resets `isScanning` to `false` in both cases. -/
def scanForPrompts (hostname : JStr) (doc : Doc) (now : Nat)
    (st : ScannerState) : ScannerState :=
  match getPlatformConfig (detectPlatform hostname) with
  | none => { st with platform := detectPlatform hostname }
  | some config =>
    match trySelectors doc now config.selectors [] 0 with
    | .ok found =>
      { st with platform := detectPlatform hostname
                prompts := found
                isScanning := false }
    | .error _ =>
      { st with platform := detectPlatform hostname
                isScanning := false }

/-- `rescan` from src/hooks/useChatScanner.ts: replace the
`scannedElementsRef` cache with a fresh empty one, then run
`scanForPrompts` immediately (no debounce). -/
def rescan (hostname : JStr) (doc : Doc) (now : Nat)
    (st : ScannerState) : ScannerState :=
  scanForPrompts hostname doc now { st with scannedElements := [] }

/-- The timeline semantics of the `debounce` wrapper from
src/hooks/useChatScanner.ts applied to `scanForPrompts` with delay
`SCAN_DEBOUNCE_DELAY`: given the ascending times (ms) at which the
debounced function is invoked, each invocation cancels the pending
timer and schedules the wrapped call `delay` ms later; a scheduled
call at `t + delay` fires exactly when no further invocation occurs
before that moment. Returns the times at which the wrapped scan
actually runs. -/
def debounceFireTimes (delay : Nat) : List Nat → List Nat
  | [] => []
  | [t] => [t + delay]
  | t :: t' :: rest =>
    if t' < t + delay then debounceFireTimes delay (t' :: rest)
    else (t + delay) :: debounceFireTimes delay (t' :: rest)

/-! ## Panel geometry controller (src/components/ChatNavigator.tsx) -/

/-- `Position` record from src/types.ts (CSS pixels, exact). -/
structure Position where
  x : ℚ
  y : ℚ
deriving DecidableEq, Repr

/-- `Size` record from src/types.ts. -/
structure Size where
  width : ℚ
  height : ℚ
deriving DecidableEq, Repr

/-- The window viewport, `window.innerWidth` and
`window.innerHeight`. -/
structure Viewport where
  innerWidth : ℚ
  innerHeight : ℚ
deriving DecidableEq, Repr

/-- `MIN_PANEL_SIZE` from src/constants.ts. -/
def MIN_PANEL_SIZE : Size := { width := 250, height := 200 }

/-- `DEFAULT_PANEL_SIZE` from src/constants.ts. -/
def DEFAULT_PANEL_SIZE : Size := { width := 320, height := 400 }

/-- The dragging branch of `handleMouseMove` in ChatNavigator.tsx:
`newX = max(0, min(innerWidth - (isCollapsed ? 48 : size.width),
clientX - dragStart.x))`, and
`newY = max(0, min(innerHeight - 50, clientY - dragStart.y))`. -/
def dragMove (vp : Viewport) (isCollapsed : Bool) (size : Size)
    (dragStart client : Position) : Position :=
  { x := max 0 (min (vp.innerWidth - (if isCollapsed then 48 else size.width))
           (client.x - dragStart.x))
    y := max 0 (min (vp.innerHeight - 50) (client.y - dragStart.y)) }

/-- The resizing branch of `handleMouseMove` in ChatNavigator.tsx:
each dimension is the resize-start size plus the cursor delta, clamped
below by `MIN_PANEL_SIZE`; there is no upper clamp. -/
def resizeMove (resizeStart : Size) (dragStart client : Position) : Size :=
  { width := max MIN_PANEL_SIZE.width
      (resizeStart.width + (client.x - dragStart.x))
    height := max MIN_PANEL_SIZE.height
      (resizeStart.height + (client.y - dragStart.y)) }

/-- `handleWindowResize` in ChatNavigator.tsx: clamp the stored
position into the new viewport using the current footprint (48×48 when
collapsed); when nothing changed the previous position object is
returned unmodified (the early-return branch). -/
def handleWindowResize (vp : Viewport) (isCollapsed : Bool) (size : Size)
    (prev : Position) : Position :=
  let panelWidth := if isCollapsed then (48 : ℚ) else size.width
  let panelHeight := if isCollapsed then (48 : ℚ) else size.height
  let maxX := max 0 (vp.innerWidth - panelWidth)
  let maxY := max 0 (vp.innerHeight - panelHeight)
  let newX := min prev.x maxX
  let newY := min prev.y maxY
  if newX ≠ prev.x ∨ newY ≠ prev.y then
    { x := max 0 newX, y := max 0 newY }
  else prev

/-- `handleCollapse` in ChatNavigator.tsx: compute the panel center,
the distances to the four viewport edges and their minimum, then snap
to the edge whose distance equals the minimum, testing left, right,
top, bottom in that order; the coordinate along the perpendicular axis
centers the 48px icon on the previous panel center, clamped between
the 12px padding and the far edge minus icon size and padding. -/
def handleCollapse (vp : Viewport) (position : Position) (size : Size) :
    Position :=
  let collapsedSize : ℚ := 48
  let padding : ℚ := 12
  let panelCenterX := position.x + size.width / 2
  let panelCenterY := position.y + size.height / 2
  let distanceToLeft := panelCenterX
  let distanceToRight := vp.innerWidth - panelCenterX
  let distanceToTop := panelCenterY
  let distanceToBottom := vp.innerHeight - panelCenterY
  let minDistance :=
    min distanceToLeft (min distanceToRight
      (min distanceToTop distanceToBottom))
  if minDistance = distanceToLeft then
    { x := padding
      y := max padding (min (vp.innerHeight - collapsedSize - padding)
             (panelCenterY - collapsedSize / 2)) }
  else if minDistance = distanceToRight then
    { x := vp.innerWidth - collapsedSize - padding
      y := max padding (min (vp.innerHeight - collapsedSize - padding)
             (panelCenterY - collapsedSize / 2)) }
  else if minDistance = distanceToTop then
    { x := max padding (min (vp.innerWidth - collapsedSize - padding)
             (panelCenterX - collapsedSize / 2))
      y := padding }
  else
    { x := max padding (min (vp.innerWidth - collapsedSize - padding)
             (panelCenterX - collapsedSize / 2))
      y := vp.innerHeight - collapsedSize - padding }

/-- The pointer-event-relevant React state of `ChatNavigator`:
collapse mode, the dragging/resizing flags, the `hasDraggedRef` flag,
the panel position and size, and the recorded drag/resize anchors. -/
structure PanelState where
  isCollapsed : Bool
  isDragging : Bool
  isResizing : Bool
  hasDragged : Bool
  position : Position
  size : Size
  dragStart : Position
  resizeStart : Size
deriving DecidableEq, Repr

/-- Pointer events driving the panel state machine: `mousedown` on the
header or collapsed icon (`handleDragStart`), global `mousemove` and
`mouseup` (`handleMouseMove` / `handleMouseUp`), and the click on the
minimized button (`handleMinimizedClick`), which the browser delivers
after the gesture's `mouseup`. -/
inductive PEvent where
  | mousedown (client : Position)
  | mousemove (client : Position)
  | mouseup
  | clickMinimized
deriving DecidableEq, Repr

/-- One step of the panel state machine, combining `handleDragStart`,
`handleMouseMove`, `handleMouseUp` and `handleMinimizedClick` from
ChatNavigator.tsx. -/
def panelStep (vp : Viewport) (s : PanelState) : PEvent → PanelState
  | .mousedown client =>
    { s with isDragging := true
             hasDragged := false
             dragStart := { x := client.x - s.position.x
                            y := client.y - s.position.y } }
  | .mousemove client =>
    let s1 :=
      if s.isDragging then
        { s with hasDragged := true
                 position := dragMove vp s.isCollapsed s.size s.dragStart
                   client }
      else s
    if s1.isResizing then
      { s1 with size := resizeMove s1.resizeStart s1.dragStart client }
    else s1
  | .mouseup => { s with isDragging := false, isResizing := false }
  | .clickMinimized =>
    if ¬ s.hasDragged then { s with isCollapsed := false } else s

/-- Run a list of pointer events through the panel state machine. -/
def panelRun (vp : Viewport) (s : PanelState) (events : List PEvent) :
    PanelState :=
  events.foldl (panelStep vp) s

/-! ## Spec-side definitions, for the refinement comparisons -/

/-- The prompts one selector alone would contribute, starting from an
empty accumulator and index 0. -/
def selectorPrompts (doc : Doc) (now : Nat) (sel : JStr) :
    Except Unit (List ChatPrompt) :=
  match doc.query sel with
  | .error e => .error e
  | .ok elements => .ok (processElements now elements [] 0).1

/-- Modelled from the spec (section 4.2, refined by the code's break
condition): evaluate selectors in listed order and return the prompt
list of the first selector that yields at least one prompt with
non-empty extracted text; selectors whose elements all extract to
empty text do not stop the search. -/
def firstYieldingScan (doc : Doc) (now : Nat) :
    List JStr → Except Unit (List ChatPrompt)
  | [] => .ok []
  | sel :: rest =>
    match selectorPrompts doc now sel with
    | .error e => .error e
    | .ok ps => if ps = [] then firstYieldingScan doc now rest else .ok ps

/-- The four viewport edges, in the fixed priority order of the
collapse transition. -/
inductive Edge where
  | left
  | right
  | top
  | bottom
deriving DecidableEq, Repr

/-- Clamp a value between a lower and an upper bound. -/
def clampQ (lo hi v : ℚ) : ℚ := max lo (min hi v)

/-- Modelled from the spec (section 4.4 collapse): the first edge in
the priority order left, right, top, bottom whose distance from the
panel center attains the minimum of the four distances. -/
def nearestEdge (dL dR dT dB : ℚ) : Edge :=
  if dL ≤ dR ∧ dL ≤ dT ∧ dL ≤ dB then .left
  else if dR ≤ dL ∧ dR ≤ dT ∧ dR ≤ dB then .right
  else if dT ≤ dL ∧ dT ≤ dR ∧ dT ≤ dB then .top
  else .bottom

/-- Modelled from the spec (section 4.4 collapse): snap to the nearest
edge chosen by `nearestEdge` (icon size 48, edge padding 12); the
coordinate along that edge is the edge padding, and the perpendicular
coordinate centers the collapsed icon on the previous panel center,
clamped to the viewport minus the edge padding. -/
def collapseSpec (vp : Viewport) (position : Position) (size : Size) :
    Position :=
  match nearestEdge (position.x + size.width / 2)
      (vp.innerWidth - (position.x + size.width / 2))
      (position.y + size.height / 2)
      (vp.innerHeight - (position.y + size.height / 2)) with
  | .left =>
    { x := 12
      y := clampQ 12 (vp.innerHeight - 48 - 12)
             (position.y + size.height / 2 - 48 / 2) }
  | .right =>
    { x := vp.innerWidth - 48 - 12
      y := clampQ 12 (vp.innerHeight - 48 - 12)
             (position.y + size.height / 2 - 48 / 2) }
  | .top =>
    { x := clampQ 12 (vp.innerWidth - 48 - 12)
             (position.x + size.width / 2 - 48 / 2)
      y := 12 }
  | .bottom =>
    { x := clampQ 12 (vp.innerWidth - 48 - 12)
             (position.x + size.width / 2 - 48 / 2)
      y := vp.innerHeight - 48 - 12 }

/-- Viewport containment of a rectangle of width `w` and height `h`
positioned at `p` (the section-3 invariant, with the footprint made
explicit). -/
def containedIn (vp : Viewport) (p : Position) (w h : ℚ) : Prop :=
  0 ≤ p.x ∧ p.x + w ≤ vp.innerWidth ∧ 0 ≤ p.y ∧ p.y + h ≤ vp.innerHeight

instance (vp : Viewport) (p : Position) (w h : ℚ) :
    Decidable (containedIn vp p w h) := by
  unfold containedIn
  infer_instance

/-! ## Theorems -/

/-- C4: For every hostname string, platform identification returns the
platform whose `hostnameMatch` is a substring of the hostname, with
the first match in the fixed listed order winning, and returns
`unknown` when no `hostnameMatch` is a substring; `configFor` applied
to `unknown` returns `null`. -/
theorem detectPlatform_eq_identifySpec :
    ∀ hostname : JStr,
      detectPlatform hostname = identifySpec hostname ∧
      getPlatformConfig .unknown = none := by
  intro hostname
  refine ⟨?_, rfl⟩
  by_cases h1 : jsIncludes hostname "chatgpt.com".data = true <;>
    by_cases h2 : jsIncludes hostname "claude.ai".data = true <;>
      by_cases h3 : jsIncludes hostname "gemini.google.com".data = true <;>
        by_cases h4 : jsIncludes hostname "groq.com".data = true <;>
          simp [detectPlatform, identifySpec, platformOrder,
            PLATFORM_CONFIGS, List.find?, h1, h2, h3, h4]

/-- C10: For a fixed document, hostname and scan time, a manual
`rescan` and a debounced (mutation-triggered) invocation of
`scanForPrompts` publish identical prompt lists, and the
`scannedElementsRef` cache content never affects the published
prompts: the scan output depends only on the document, the detected
platform's config and the scan time. -/
theorem rescan_eq_scan_and_cache_independent :
    ∀ (hostname : JStr) (doc : Doc) (now : Nat) (st : ScannerState)
      (cache₁ cache₂ : List Element),
      (rescan hostname doc now st).prompts =
        (scanForPrompts hostname doc now st).prompts ∧
      (scanForPrompts hostname doc now
          { st with scannedElements := cache₁ }).prompts =
        (scanForPrompts hostname doc now
          { st with scannedElements := cache₂ }).prompts := by
  intro hostname doc now st cache₁ cache₂
  simp only [rescan, scanForPrompts]
  cases h : getPlatformConfig (detectPlatform hostname) with
  | none => simp
  | some config =>
    cases h2 : trySelectors doc now config.selectors [] 0 <;> simp [h2]

/-- C5: For every burst of qualifying mutations whose consecutive
arrival times are separated by less than the debounce delay, exactly
one scan fires, at the last mutation's time plus the delay; every new
qualifying change resets the pending timer. -/
theorem debounce_coalesces_burst :
    ∀ (delay t : Nat) (ts : List Nat),
      List.Chain' (fun a b => a ≤ b ∧ b < a + delay) (t :: ts) →
      debounceFireTimes delay (t :: ts) =
        [(t :: ts).getLast (List.cons_ne_nil t ts) + delay] := by
  intro delay t ts
  induction ts generalizing t with
  | nil => intro _; rfl
  | cons t' rest ih =>
    intro hchain
    rw [List.chain'_cons] at hchain
    have hlt : t' < t + delay := hchain.1.2
    have hstep : debounceFireTimes delay (t :: t' :: rest) =
        if t' < t + delay then debounceFireTimes delay (t' :: rest)
        else (t + delay) :: debounceFireTimes delay (t' :: rest) := rfl
    rw [hstep, if_pos hlt, ih t' hchain.2,
      List.getLast_cons (List.cons_ne_nil t' rest)]

/-- Witness for C5, the spec's concrete burst: five qualifying
mutations 50ms apart with a 300ms delay trigger exactly one scan,
300ms after the last mutation (at 500 = 200 + 300). -/
theorem debounce_coalesces_burst_witness :
    List.Chain' (fun a b => a ≤ b ∧ b < a + SCAN_DEBOUNCE_DELAY)
      [0, 50, 100, 150, 200] ∧
    debounceFireTimes SCAN_DEBOUNCE_DELAY [0, 50, 100, 150, 200] = [500] := by
  refine ⟨by simp [List.chain'_cons, SCAN_DEBOUNCE_DELAY], ?_⟩
  rw [debounce_coalesces_burst SCAN_DEBOUNCE_DELAY 0 [50, 100, 150, 200]
    (by simp [List.chain'_cons, SCAN_DEBOUNCE_DELAY])]
  decide

/-! ## Concrete fixtures used by counterexamples and witnesses -/

/-- A 120-character all-whitespace text element with no images. -/
def elemSpaces120 : Element :=
  { textContent := List.replicate 120 ' '
    imageCount := 0
    rectTop := 0
    rectLeft := 0 }

/-- A 120-character element of letters with no images. -/
def elemA120 : Element :=
  { textContent := List.replicate 120 'a'
    imageCount := 0
    rectTop := 0
    rectLeft := 0 }

/-- An element whose trimmed text is empty and which has no images:
`extractText` produces the empty string for it. -/
def elemEmptyText : Element :=
  { textContent := "".data, imageCount := 0, rectTop := 0, rectLeft := 0 }

/-- An element with short non-empty text. -/
def elemHello : Element :=
  { textContent := "hello".data, imageCount := 0, rectTop := 10,
    rectLeft := 20 }

/-- The initial scanner state of `useChatScanner`. -/
def st0 : ScannerState :=
  { prompts := [], platform := .unknown, isScanning := false,
    scannedElements := [] }

/-- A scanner state already holding one published prompt. -/
def stSeeded : ScannerState :=
  { prompts := [{ id := "p".data, index := 1, text := "hi".data,
                  element := elemHello, timestamp := 0 }]
    platform := .chatgpt
    isScanning := false
    scannedElements := [] }

/-- A document on which every selector query yields no elements. -/
def docEmpty : Doc := { query := fun _ => .ok [] }

/-- A document on which every selector query throws. -/
def docThrows : Doc := { query := fun _ => .error () }

/-- A document where the ChatGPT user-message selector matches one
120-letter element. -/
def docLongText : Doc :=
  { query := fun sel =>
      if sel = "[data-message-author-role=\"user\"]".data then
        .ok [elemA120]
      else .ok [] }

/-- A document where Gemini's first selector matches one element whose
extracted text is empty, and Gemini's second selector matches one
element with text `hello`. -/
def docFirstSelectorEmpty : Doc :=
  { query := fun sel =>
      if sel = ".user-query-wrapper".data then .ok [elemEmptyText]
      else if sel = "[data-test-id=\"user-query\"]".data then
        .ok [elemHello]
      else .ok [] }

/-! ## Text-extraction claims (C8, C9) -/

/-- C8 counterexample: an input string of 120 characters (all
whitespace) containing no images produces a 0-character output, not
the claimed 83-character output — `extractText` trims before
truncating, so the claim fails for inputs with surrounding
whitespace. -/
theorem extractText_whitespace_not_truncated :
    elemSpaces120.textContent.length = 120 ∧
    elemSpaces120.imageCount = 0 ∧
    (extractText elemSpaces120).length = 0 := by
  refine ⟨by decide, by decide, by decide⟩

/-- C8 (amended): for every input string of 120 characters that is
unchanged by trimming (no leading or trailing whitespace) and contains
no images, with the maximum length configured at 80, text extraction
produces exactly the first 80 characters of the input followed by the
3-character ellipsis, an output of exactly 83 characters. -/
theorem extractText_truncates_at_80_plus_ellipsis :
    ∀ (s : JStr) (top left : ℚ),
      s.length = 120 → jsTrim s = s →
      extractText { textContent := s, imageCount := 0,
                    rectTop := top, rectLeft := left } =
        s.take 80 ++ "...".data ∧
      (extractText { textContent := s, imageCount := 0,
                     rectTop := top, rectLeft := left }).length = 83 := by
  intro s top left hlen htrim
  have hext : extractText ⟨s, 0, top, left⟩ = s.take 80 ++ "...".data := by
    simp [extractText, htrim, hlen, MAX_PROMPT_TEXT_LENGTH]
  refine ⟨hext, ?_⟩
  rw [hext]
  simp [hlen]

/-- Witness for C8: the 120-letter input is trim-stable and extraction
yields its first 80 characters plus the ellipsis, 83 characters in
total. -/
theorem extractText_truncates_witness :
    (List.replicate 120 'a').length = 120 ∧
    jsTrim (List.replicate 120 'a') = List.replicate 120 'a' ∧
    extractText { textContent := List.replicate 120 'a', imageCount := 0,
                  rectTop := 0, rectLeft := 0 } =
      (List.replicate 120 'a').take 80 ++ "...".data ∧
    (extractText { textContent := List.replicate 120 'a', imageCount := 0,
                   rectTop := 0, rectLeft := 0 }).length = 83 :=
  ⟨by decide, by decide,
   (extractText_truncates_at_80_plus_ellipsis (List.replicate 120 'a') 0 0
     (by decide) (by decide)).1,
   (extractText_truncates_at_80_plus_ellipsis (List.replicate 120 'a') 0 0
     (by decide) (by decide)).2⟩

/-- The truncation step of `extractText` never produces more than the
maximum length plus the 3-character ellipsis. -/
lemma truncate_length_le (t : JStr) :
    (if t.length > MAX_PROMPT_TEXT_LENGTH then
        t.take MAX_PROMPT_TEXT_LENGTH ++ "...".data
      else t).length ≤ MAX_PROMPT_TEXT_LENGTH + 3 := by
  split_ifs with h
  · simp [List.length_take]
  · omega

/-- Every output of `extractText` has length at most
`MAX_PROMPT_TEXT_LENGTH + 3`. -/
lemma extractText_length_le (e : Element) :
    (extractText e).length ≤ MAX_PROMPT_TEXT_LENGTH + 3 := by
  unfold extractText
  exact truncate_length_le _

/-- Every prompt produced by `processElements` either was already in
the accumulator or carries the extracted text of some element. -/
lemma processElements_mem_text (now : Nat) :
    ∀ (els : List Element) (acc : List ChatPrompt) (idx : Nat)
      (p : ChatPrompt),
      p ∈ (processElements now els acc idx).1 →
      p ∈ acc ∨ ∃ e, p.text = extractText e := by
  intro els
  induction els with
  | nil =>
    intro acc idx p hp
    exact Or.inl hp
  | cons e rest ih =>
    intro acc idx p hp
    unfold processElements at hp
    by_cases ht : extractText e = []
    · rw [if_pos ht] at hp
      exact ih acc idx p hp
    · rw [if_neg ht] at hp
      rcases ih _ _ p hp with hmem | hex
      · rcases List.mem_append.mp hmem with h | h
        · exact Or.inl h
        · refine Or.inr ⟨e, ?_⟩
          simp only [List.mem_singleton] at h
          rw [h]
      · exact Or.inr hex

/-- Every prompt in a successful `trySelectors` run either was already
in the accumulator or carries the extracted text of some element. -/
lemma trySelectors_mem_text (doc : Doc) (now : Nat) :
    ∀ (sels : List JStr) (acc : List ChatPrompt) (idx : Nat)
      (found : List ChatPrompt) (p : ChatPrompt),
      trySelectors doc now sels acc idx = .ok found →
      p ∈ found →
      p ∈ acc ∨ ∃ e, p.text = extractText e := by
  intro sels
  induction sels with
  | nil =>
    intro acc idx found p h hp
    cases h
    exact Or.inl hp
  | cons sel rest ih =>
    intro acc idx found p h hp
    unfold trySelectors at h
    cases hq : doc.query sel with
    | error err => rw [hq] at h; cases h
    | ok els =>
      simp only [hq] at h
      rcases hpe : processElements now els acc idx with ⟨acc', idx'⟩
      rw [hpe] at h
      by_cases hlen : acc'.length > 0
      · rw [if_pos hlen] at h
        cases h
        have := processElements_mem_text now els acc idx p
        rw [hpe] at this
        exact this hp
      · rw [if_neg hlen] at h
        rcases ih acc' idx' found p h hp with hmem | hex
        · have := processElements_mem_text now els acc idx p
          rw [hpe] at this
          exact this hmem
        · exact Or.inr hex

/-- C9 counterexample: a scan over a document containing one
120-letter user message publishes a prompt whose text has 83
characters, exceeding the configured maximum of 80 — so "text length
at most the configured maximum" fails for truncated prompts. -/
theorem scan_text_exceeds_max :
    ((scanForPrompts "chatgpt.com".data docLongText 0 st0).prompts.map
      (fun p => p.text.length)) = [83] ∧
    ¬ (83 ≤ MAX_PROMPT_TEXT_LENGTH) := by
  exact ⟨by set_option maxRecDepth 8000 in decide, by decide⟩

/-- C9 (amended): every `ChatPrompt` appearing in any scan's result
list has text of length at most the configured maximum length plus
the 3-character ellipsis marker, that is at most 83 characters
(assuming the previously published prompts, which an unknown-platform
or failing scan leaves in place, already satisfy the bound). -/
theorem scan_prompts_text_bounded :
    ∀ (hostname : JStr) (doc : Doc) (now : Nat) (st : ScannerState),
      (∀ p ∈ st.prompts, p.text.length ≤ MAX_PROMPT_TEXT_LENGTH + 3) →
      ∀ p ∈ (scanForPrompts hostname doc now st).prompts,
        p.text.length ≤ MAX_PROMPT_TEXT_LENGTH + 3 := by
  intro hostname doc now st hst p hp
  unfold scanForPrompts at hp
  cases hc : getPlatformConfig (detectPlatform hostname) with
  | none =>
    simp only [hc] at hp
    exact hst p hp
  | some config =>
    simp only [hc] at hp
    cases htry : trySelectors doc now config.selectors [] 0 with
    | ok found =>
      simp only [htry] at hp
      rcases trySelectors_mem_text doc now config.selectors [] 0 found p
          htry hp with hmem | ⟨e, he⟩
      · cases hmem
      · rw [he]
        exact extractText_length_le e
    | error err =>
      simp only [htry] at hp
      exact hst p hp

/-- Witness for C9: starting from the empty published list, the scan
of the 120-letter document publishes only prompts with text length at
most 83. -/
theorem scan_prompts_text_bounded_witness :
    (∀ p ∈ st0.prompts, p.text.length ≤ MAX_PROMPT_TEXT_LENGTH + 3) ∧
    (∀ p ∈ (scanForPrompts "chatgpt.com".data docLongText 0 st0).prompts,
      p.text.length ≤ MAX_PROMPT_TEXT_LENGTH + 3) :=
  ⟨by simp [st0],
   scan_prompts_text_bounded "chatgpt.com".data docLongText 0 st0
     (by simp [st0])⟩

/-! ## Selector-order claims (C1) -/

/-- `processElements` only appends to its accumulator: the result
splits as the accumulator followed by the contribution computed from
the empty accumulator, and the final index is independent of the
accumulator. -/
lemma processElements_acc (now : Nat) :
    ∀ (els : List Element) (acc : List ChatPrompt) (idx : Nat),
      processElements now els acc idx =
        (acc ++ (processElements now els [] idx).1,
         (processElements now els [] idx).2) := by
  intro els
  induction els with
  | nil =>
    intro acc idx
    simp [processElements]
  | cons e rest ih =>
    intro acc idx
    unfold processElements
    by_cases ht : extractText e = []
    · rw [if_pos ht, if_pos ht, ih acc idx]
    · rw [if_neg ht, if_neg ht]
      simp only [List.nil_append]
      rw [ih (acc ++ [_]) (idx + 1), ih [_] (idx + 1)]
      simp

/-- When `processElements` starting from the empty accumulator
produces no prompts, the index counter is unchanged. -/
lemma processElements_empty_idx (now : Nat) :
    ∀ (els : List Element) (idx : Nat),
      (processElements now els [] idx).1 = [] →
      (processElements now els [] idx).2 = idx := by
  intro els
  induction els with
  | nil =>
    intro idx _
    rfl
  | cons e rest ih =>
    intro idx h
    unfold processElements at h ⊢
    by_cases ht : extractText e = []
    · rw [if_pos ht] at h ⊢
      exact ih idx h
    · rw [if_neg ht] at h
      simp only [List.nil_append] at h
      rw [processElements_acc now rest [_] (idx + 1)] at h
      simp at h

/-- C1 counterexample: on Gemini's two-selector config, a document
where the first selector (index 0) queries one element (whose
extracted text is empty) and the second selector queries a `hello`
element publishes the second selector's match — the first selector's
query yielding an element does not stop the scan, contradicting "once
that selector has matched, no later selector is evaluated". -/
theorem scan_uses_later_selector :
    docFirstSelectorEmpty.query ".user-query-wrapper".data =
      .ok [elemEmptyText] ∧
    (scanForPrompts "gemini.google.com".data docFirstSelectorEmpty 0
        st0).prompts.map (fun p => p.text) = ["hello".data] := by
  exact ⟨rfl, by set_option maxRecDepth 8000 in decide⟩

/-- C1 (amended): for every platform config and document state, the
scan result is produced entirely from the first selector in listed
order that yields at least one element with non-empty extracted text;
once some prompt has been collected no later selector is evaluated,
but a selector whose query yields only elements with empty extracted
text does not stop the scan. -/
theorem scan_first_yielding_selector :
    ∀ (doc : Doc) (now : Nat) (sels : List JStr),
      trySelectors doc now sels [] 0 = firstYieldingScan doc now sels := by
  intro doc now sels
  induction sels with
  | nil => rfl
  | cons sel rest ih =>
    unfold trySelectors firstYieldingScan selectorPrompts
    cases hq : doc.query sel with
    | error e => simp [hq]
    | ok els =>
      simp only [hq]
      rcases hpe : processElements now els [] 0 with ⟨ps, idx'⟩
      by_cases hps : ps = []
      · have hidx : idx' = 0 := by
          have := processElements_empty_idx now els 0
          rw [hpe] at this
          exact this (by simp [hps])
        subst hps
        subst hidx
        simpa using ih
      · have hlen : ps.length > 0 := List.length_pos.mpr hps
        simp [hlen, hps]

/-! ## Error-handling claims (C3) -/

/-- C3 counterexample: on an unknown platform the scan does not emit
an empty prompt list — it returns early and the previously published
prompts stay in place. -/
theorem scan_unknown_keeps_prompts :
    getPlatformConfig (detectPlatform "example.com".data) = none ∧
    (scanForPrompts "example.com".data docEmpty 0 stSeeded).prompts ≠ [] := by
  exact ⟨rfl, by decide⟩

/-- C3 (amended): if the platform config is absent the scan logs and
stops, leaving the published prompt list (and the `isScanning` flag)
unchanged; if an exception is thrown during selector evaluation it is
caught, the published prompt list is left unchanged, and `isScanning`
is reset to `false`. In neither case does the exception propagate to
the host page: `scanForPrompts` is a total state transition. -/
theorem scan_error_handling :
    ∀ (hostname : JStr) (doc : Doc) (now : Nat) (st : ScannerState),
      (getPlatformConfig (detectPlatform hostname) = none →
        scanForPrompts hostname doc now st =
          { st with platform := detectPlatform hostname }) ∧
      (∀ config, getPlatformConfig (detectPlatform hostname) = some config →
        trySelectors doc now config.selectors [] 0 = .error () →
        scanForPrompts hostname doc now st =
          { st with platform := detectPlatform hostname
                    isScanning := false }) := by
  intro hostname doc now st
  constructor
  · intro h
    unfold scanForPrompts
    simp only [h]
  · intro config hc herr
    unfold scanForPrompts
    simp only [hc, herr]

/-- Witness for C3: an unknown host leaves the seeded prompt list in
place, and a document whose queries throw on a known platform leaves
the seeded prompt list in place with `isScanning` reset. -/
theorem scan_error_handling_witness :
    scanForPrompts "example.com".data docEmpty 0 stSeeded =
      { stSeeded with platform := .unknown } ∧
    scanForPrompts "claude.ai".data docThrows 0 stSeeded =
      { stSeeded with platform := .claude, isScanning := false } :=
  ⟨(scan_error_handling "example.com".data docEmpty 0 stSeeded).1 rfl,
   (scan_error_handling "claude.ai".data docThrows 0 stSeeded).2
     { name := "Claude".data
       hostname := "claude.ai".data
       selectors := [".font-user-message".data]
       containerSelector := some "main".data }
     rfl rfl⟩

/-! ## Viewport-containment claims (C2) -/

/-- A two-sided clamp `max lo (min hi v)` lands between its bounds
when they are ordered. -/
lemma clampQ_bounds (lo hi v : ℚ) (h : lo ≤ hi) :
    lo ≤ clampQ lo hi v ∧ clampQ lo hi v ≤ hi :=
  ⟨le_max_left _ _, max_le h (min_le_left _ _)⟩

/-- A clamp of the form `max 0 (min b v)` stays at most `b` when
`0 ≤ b` (the drag-move clamp shape). -/
lemma clamp_upper (b v : ℚ) (hb : 0 ≤ b) : max 0 (min b v) ≤ b :=
  max_le hb (min_le_left _ _)

/-- A clamp of the form `max 0 (min v b)` stays at most `b` when
`0 ≤ b` (the window-resize clamp shape). -/
lemma clamp_upper' (b v : ℚ) (hb : 0 ≤ b) : max 0 (min v b) ≤ b :=
  max_le hb (min_le_right _ _)

/-- `handleCollapse` computes exactly the spec-side collapse: snap to
the first edge in priority order left, right, top, bottom whose
center-distance attains the minimum, with the perpendicular coordinate
centered and clamped. Shared by the collapse-related claims. -/
lemma handleCollapse_eq (vp : Viewport) (position : Position) (size : Size) :
    handleCollapse vp position size = collapseSpec vp position size := by
  unfold handleCollapse collapseSpec nearestEdge clampQ
  dsimp only
  set cX := position.x + size.width / 2 with hcX
  set cY := position.y + size.height / 2 with hcY
  set dR := vp.innerWidth - cX with hdR
  set dB := vp.innerHeight - cY with hdB
  have hmle1 : min cX (min dR (min cY dB)) ≤ cX := min_le_left _ _
  have hmle2 : min cX (min dR (min cY dB)) ≤ dR :=
    le_trans (min_le_right _ _) (min_le_left _ _)
  have hmle3 : min cX (min dR (min cY dB)) ≤ cY :=
    le_trans (min_le_right _ _) (le_trans (min_le_right _ _) (min_le_left _ _))
  have hmle4 : min cX (min dR (min cY dB)) ≤ dB :=
    le_trans (min_le_right _ _) (le_trans (min_le_right _ _) (min_le_right _ _))
  by_cases h1 : cX ≤ dR ∧ cX ≤ cY ∧ cX ≤ dB
  · have hm : min cX (min dR (min cY dB)) = cX :=
      le_antisymm hmle1 (le_min le_rfl (le_min h1.1 (le_min h1.2.1 h1.2.2)))
    rw [if_pos hm, if_pos h1]
  · have hneL : ¬ (min cX (min dR (min cY dB)) = cX) := fun he =>
      h1 ⟨he ▸ hmle2, he ▸ hmle3, he ▸ hmle4⟩
    by_cases h2 : dR ≤ cX ∧ dR ≤ cY ∧ dR ≤ dB
    · have hm : min cX (min dR (min cY dB)) = dR :=
        le_antisymm hmle2 (le_min h2.1 (le_min le_rfl (le_min h2.2.1 h2.2.2)))
      rw [if_neg hneL, if_pos hm, if_neg h1, if_pos h2]
    · have hneR : ¬ (min cX (min dR (min cY dB)) = dR) := fun he =>
        h2 ⟨he ▸ hmle1, he ▸ hmle3, he ▸ hmle4⟩
      by_cases h3 : cY ≤ cX ∧ cY ≤ dR ∧ cY ≤ dB
      · have hm : min cX (min dR (min cY dB)) = cY :=
          le_antisymm hmle3
            (le_min h3.1 (le_min h3.2.1 (le_min le_rfl h3.2.2)))
        rw [if_neg hneL, if_neg hneR, if_pos hm, if_neg h1, if_neg h2,
          if_pos h3]
      · have hneT : ¬ (min cX (min dR (min cY dB)) = cY) := fun he =>
          h3 ⟨he ▸ hmle1, he ▸ hmle2, he ▸ hmle4⟩
        rw [if_neg hneL, if_neg hneR, if_neg hneT, if_neg h1, if_neg h2,
          if_neg h3]

/-- C2 counterexample: dragging an expanded 320×400 panel in a
1200×800 viewport to cursor (600, 790) settles the panel at
(600, 750), and 750 exceeds `viewportHeight − panelHeight = 400` — the
drag-move transition clamps `y` only against the hardcoded bound
`innerHeight − 50`, not against the panel height, so viewport
containment fails. -/
theorem dragMove_escapes_bottom :
    dragMove { innerWidth := 1200, innerHeight := 800 } false
      { width := 320, height := 400 } { x := 0, y := 0 }
      { x := 600, y := 790 } = { x := 600, y := 750 } ∧
    ¬ ((750 : ℚ) ≤ 800 - 400) := by
  constructor
  · unfold dragMove
    norm_num [min_def, max_def]
  · norm_num

/-- C2 (amended): drag-move clamps `x` into
`[0, viewportWidth − panelWidth]` (width 48 when collapsed) but clamps
`y` only into `[0, viewportHeight − 50]`, keeping just the top 50px
strip of the panel on-screen; the viewport-reflow transition re-clamps
the stored position to full containment in both axes (when the panel
fits and the previous position is non-negative); the collapse
transition places the 48×48 icon fully inside the viewport (viewport
at least 72px in each dimension). -/
theorem panel_transitions_clamp :
    ∀ (vp : Viewport) (isCollapsed : Bool) (size : Size)
      (dragStart client prev : Position),
      (if isCollapsed then (48 : ℚ) else size.width) ≤ vp.innerWidth →
      (if isCollapsed then (48 : ℚ) else size.height) ≤ vp.innerHeight →
      (50 : ℚ) ≤ vp.innerHeight →
      0 ≤ prev.x → 0 ≤ prev.y →
      (72 : ℚ) ≤ vp.innerWidth → (72 : ℚ) ≤ vp.innerHeight →
      containedIn vp (dragMove vp isCollapsed size dragStart client)
        (if isCollapsed then (48 : ℚ) else size.width) 50 ∧
      containedIn vp (handleWindowResize vp isCollapsed size prev)
        (if isCollapsed then (48 : ℚ) else size.width)
        (if isCollapsed then (48 : ℚ) else size.height) ∧
      containedIn vp (handleCollapse vp prev size) 48 48 := by
  intro vp isCollapsed size dragStart client prev hw hh h50 hpx hpy h72w h72h
  set W := (if isCollapsed then (48 : ℚ) else size.width) with hWdef
  set H := (if isCollapsed then (48 : ℚ) else size.height) with hHdef
  have h0W : (0 : ℚ) ≤ vp.innerWidth - W := by linarith
  have h0H : (0 : ℚ) ≤ vp.innerHeight - H := by linarith
  refine ⟨?_, ?_, ?_⟩
  · -- drag-move
    unfold dragMove containedIn
    dsimp only
    refine ⟨le_max_left _ _, ?_, le_max_left _ _, ?_⟩
    · have h := clamp_upper (vp.innerWidth - W) (client.x - dragStart.x) h0W
      linarith
    · have h := clamp_upper (vp.innerHeight - 50) (client.y - dragStart.y)
        (by linarith)
      linarith
  · -- viewport-reflow
    unfold handleWindowResize containedIn
    dsimp only
    have hmx : max 0 (vp.innerWidth - W) = vp.innerWidth - W :=
      max_eq_right h0W
    have hmy : max 0 (vp.innerHeight - H) = vp.innerHeight - H :=
      max_eq_right h0H
    rw [hmx, hmy]
    split_ifs with hchange
    · refine ⟨le_max_left _ _, ?_, le_max_left _ _, ?_⟩
      · have h := clamp_upper' (vp.innerWidth - W) prev.x h0W
        linarith
      · have h := clamp_upper' (vp.innerHeight - H) prev.y h0H
        linarith
    · push_neg at hchange
      have hx' : prev.x ≤ vp.innerWidth - W := by
        rw [← hchange.1]
        exact min_le_right _ _
      have hy' : prev.y ≤ vp.innerHeight - H := by
        rw [← hchange.2]
        exact min_le_right _ _
      exact ⟨hpx, by linarith, hpy, by linarith⟩
  · -- collapse
    rw [handleCollapse_eq]
    unfold collapseSpec containedIn
    have hyb := clampQ_bounds 12 (vp.innerHeight - 48 - 12)
      (prev.y + size.height / 2 - 48 / 2) (by linarith)
    have hxb := clampQ_bounds 12 (vp.innerWidth - 48 - 12)
      (prev.x + size.width / 2 - 48 / 2) (by linarith)
    cases nearestEdge (prev.x + size.width / 2)
        (vp.innerWidth - (prev.x + size.width / 2))
        (prev.y + size.height / 2)
        (vp.innerHeight - (prev.y + size.height / 2)) with
    | left =>
      exact ⟨by norm_num, by linarith, by linarith [hyb.1],
        by linarith [hyb.2]⟩
    | right =>
      exact ⟨by linarith, by linarith, by linarith [hyb.1],
        by linarith [hyb.2]⟩
    | top =>
      exact ⟨by linarith [hxb.1], by linarith [hxb.2], by norm_num,
        by linarith⟩
    | bottom =>
      exact ⟨by linarith [hxb.1], by linarith [hxb.2], by linarith,
        by linarith⟩

/-- Witness for C2, matching the spec's drag-clamp example: dragging a
320×400 panel toward cursor (−50, −50) in a 1200×800 viewport and the
other transitions from position (20, 100) all satisfy the amended
clamp bounds. -/
theorem panel_transitions_clamp_witness :
    ((if false then (48 : ℚ) else 320) ≤ 1200 ∧
     (if false then (48 : ℚ) else 400) ≤ 800 ∧
     (50 : ℚ) ≤ 800 ∧ (0 : ℚ) ≤ 20 ∧ (0 : ℚ) ≤ 100 ∧
     (72 : ℚ) ≤ 1200 ∧ (72 : ℚ) ≤ 800) ∧
    (containedIn { innerWidth := 1200, innerHeight := 800 }
       (dragMove { innerWidth := 1200, innerHeight := 800 } false
         { width := 320, height := 400 } { x := 0, y := 0 }
         { x := -50, y := -50 })
       (if false then (48 : ℚ) else 320) 50 ∧
     containedIn { innerWidth := 1200, innerHeight := 800 }
       (handleWindowResize { innerWidth := 1200, innerHeight := 800 } false
         { width := 320, height := 400 } { x := 20, y := 100 })
       (if false then (48 : ℚ) else 320)
       (if false then (48 : ℚ) else 400) ∧
     containedIn { innerWidth := 1200, innerHeight := 800 }
       (handleCollapse { innerWidth := 1200, innerHeight := 800 }
         { x := 20, y := 100 } { width := 320, height := 400 })
       48 48) :=
  ⟨by norm_num,
   panel_transitions_clamp { innerWidth := 1200, innerHeight := 800 } false
     { width := 320, height := 400 } { x := 0, y := 0 } { x := -50, y := -50 }
     { x := 20, y := 100 } (by norm_num) (by norm_num) (by norm_num)
     (by norm_num) (by norm_num) (by norm_num) (by norm_num)⟩

/-! ## Collapse-snap claim (C6) -/

/-- C6: For every expanded panel position, size, and viewport, the
collapse transition snaps the panel to the viewport edge nearest to
the panel's center, breaking distance ties in the fixed edge-priority
order left, right, top, bottom; the position along the perpendicular
axis is centered on the previous panel center and clamped to the
viewport minus the fixed edge padding. -/
theorem handleCollapse_snaps_nearest_edge :
    ∀ (vp : Viewport) (position : Position) (size : Size),
      handleCollapse vp position size = collapseSpec vp position size :=
  fun vp position size => handleCollapse_eq vp position size

/-! ## Click-versus-drag claim (C7) -/

/-- Processing a run of `mousemove` events from a state in which the
panel is being dragged keeps the dragging flag, preserves the collapse
mode, and sets the did-move flag exactly when the run is non-empty (or
it was already set). -/
lemma panelRun_moves (vp : Viewport) :
    ∀ (moves : List Position) (s : PanelState), s.isDragging = true →
      (panelRun vp s (moves.map PEvent.mousemove)).isDragging = true ∧
      (panelRun vp s (moves.map PEvent.mousemove)).isCollapsed =
        s.isCollapsed ∧
      (panelRun vp s (moves.map PEvent.mousemove)).hasDragged =
        (s.hasDragged || !moves.isEmpty) := by
  intro moves
  induction moves with
  | nil =>
    intro s hs
    simp [panelRun, hs]
  | cons m rest ih =>
    intro s hs
    have hstep : panelRun vp s ((m :: rest).map PEvent.mousemove) =
        panelRun vp (panelStep vp s (PEvent.mousemove m))
          (rest.map PEvent.mousemove) := rfl
    have hflags :
        (panelStep vp s (PEvent.mousemove m)).isDragging = true ∧
        (panelStep vp s (PEvent.mousemove m)).isCollapsed = s.isCollapsed ∧
        (panelStep vp s (PEvent.mousemove m)).hasDragged = true := by
      unfold panelStep
      dsimp only
      rw [if_pos hs]
      by_cases hr : s.isResizing = true <;> simp [hr, hs]
    rcases ih (panelStep vp s (PEvent.mousemove m)) hflags.1 with
      ⟨ihd, ihc, ihh⟩
    refine ⟨by rw [hstep]; exact ihd, ?_, ?_⟩
    · rw [hstep, ihc, hflags.2.1]
    · rw [hstep, ihh, hflags.2.2]
      simp

/-- C7: For every pointer gesture on the collapsed icon consisting of
a pointer-down, a (possibly empty) run of pointer-moves, a pointer-up,
and the subsequent click event, the panel expands exactly when the
gesture contained no pointer move: a down/move/up sequence leaves the
panel collapsed, while a down/up with no intervening move expands
it. -/
theorem expand_click_vs_drag :
    ∀ (vp : Viewport) (s₀ : PanelState), s₀.isCollapsed = true →
      ∀ (c : Position) (moves : List Position),
        (panelRun vp s₀ ([PEvent.mousedown c] ++
            moves.map PEvent.mousemove ++
            [PEvent.mouseup, PEvent.clickMinimized])).isCollapsed = false ↔
          moves = [] := by
  intro vp s₀ h₀ c moves
  have hsplit : panelRun vp s₀ ([PEvent.mousedown c] ++
      moves.map PEvent.mousemove ++
      [PEvent.mouseup, PEvent.clickMinimized]) =
      panelStep vp
        (panelStep vp
          (panelRun vp (panelStep vp s₀ (PEvent.mousedown c))
            (moves.map PEvent.mousemove))
          PEvent.mouseup)
        PEvent.clickMinimized := by
    unfold panelRun
    rw [List.foldl_append, List.foldl_append]
    rfl
  have hdown : (panelStep vp s₀ (PEvent.mousedown c)).isDragging = true ∧
      (panelStep vp s₀ (PEvent.mousedown c)).isCollapsed = true ∧
      (panelStep vp s₀ (PEvent.mousedown c)).hasDragged = false := by
    unfold panelStep
    exact ⟨rfl, h₀, rfl⟩
  rcases panelRun_moves vp moves (panelStep vp s₀ (PEvent.mousedown c))
    hdown.1 with ⟨_, hcol, hdrag⟩
  rw [hdown.2.1] at hcol
  rw [hdown.2.2] at hdrag
  rw [hsplit]
  have hclick : ∀ s : PanelState,
      (panelStep vp s PEvent.clickMinimized).isCollapsed =
        (if s.hasDragged = true then s.isCollapsed else false) := by
    intro s
    unfold panelStep
    dsimp only
    by_cases hd : s.hasDragged = true <;> simp [hd]
  rw [hclick]
  have hupc : (panelStep vp
      (panelRun vp (panelStep vp s₀ (PEvent.mousedown c))
        (moves.map PEvent.mousemove)) PEvent.mouseup).isCollapsed =
      (panelRun vp (panelStep vp s₀ (PEvent.mousedown c))
        (moves.map PEvent.mousemove)).isCollapsed := rfl
  have huph : (panelStep vp
      (panelRun vp (panelStep vp s₀ (PEvent.mousedown c))
        (moves.map PEvent.mousemove)) PEvent.mouseup).hasDragged =
      (panelRun vp (panelStep vp s₀ (PEvent.mousedown c))
        (moves.map PEvent.mousemove)).hasDragged := rfl
  rw [hupc, huph, hdrag, hcol]
  cases hmoves : moves.isEmpty with
  | true =>
    have hnil : moves = [] := List.isEmpty_iff.mp hmoves
    subst hnil
    simp
  | false =>
    have hne : ¬ moves = [] := by
      intro h
      subst h
      simp at hmoves
    simp [hmoves, hne]

/-- Witness for C7: from a concrete collapsed state, a
down/move/up/click gesture with one pointer move does not expand the
panel (the iff's right side is the false statement `[⟨6, 6⟩] = []`). -/
theorem expand_click_vs_drag_witness :
    ({ isCollapsed := true, isDragging := false, isResizing := false
       hasDragged := false, position := { x := 20, y := 100 }
       size := DEFAULT_PANEL_SIZE, dragStart := { x := 0, y := 0 }
       resizeStart := { width := 0, height := 0 } } :
        PanelState).isCollapsed = true ∧
    ((panelRun { innerWidth := 1200, innerHeight := 800 }
        { isCollapsed := true, isDragging := false, isResizing := false
          hasDragged := false, position := { x := 20, y := 100 }
          size := DEFAULT_PANEL_SIZE, dragStart := { x := 0, y := 0 }
          resizeStart := { width := 0, height := 0 } }
        ([PEvent.mousedown { x := 5, y := 5 }] ++
          [({ x := 6, y := 6 } : Position)].map PEvent.mousemove ++
          [PEvent.mouseup, PEvent.clickMinimized])).isCollapsed = false ↔
      [({ x := 6, y := 6 } : Position)] = []) :=
  ⟨rfl,
   expand_click_vs_drag { innerWidth := 1200, innerHeight := 800 }
     { isCollapsed := true, isDragging := false, isResizing := false
       hasDragged := false, position := { x := 20, y := 100 }
       size := DEFAULT_PANEL_SIZE, dragStart := { x := 0, y := 0 }
       resizeStart := { width := 0, height := 0 } }
     rfl { x := 5, y := 5 } [{ x := 6, y := 6 }]⟩

end BackTrack
